import Mathlib

/-!
Shallow embedding of the Deye SUN micro-inverter polling coordinator
(`custom_components/deye_sun_microinverter/__init__.py`).

Modelling conventions:
* Python floats are modelled as exact rationals (`ℚ`); the numeric strings
  on the status page are short decimals, and every property of interest is
  about control flow and caching, not floating-point rounding.
* Python dicts with a fixed key set are modelled as structures; a key that
  may be missing (or hold `None`) is an `Option` field, since every
  consumer reads through `dict.get`, which identifies "absent" and `None`.
* `datetime.now()` is abstracted as one integer timestamp `now` (seconds) per
  tick; the staleness comparisons only subtract and compare such stamps.
* The `re.search` calls all use the single pattern shape
  `var\s+NAME\s*=\s*"([^\x22]*)";`; the scanner below implements exactly
  that search (leftmost occurrence, ASCII whitespace).
-/

/- ## Character-level helpers (Python `str.strip`, `float`, `re.search`) -/

/-- Leading and trailing whitespace removal on a character list,
modelling Python `str.strip()` for the ASCII whitespace that occurs in
the status pages. -/
def stripChars (cs : List Char) : List Char :=
  ((cs.dropWhile Char.isWhitespace).reverse.dropWhile Char.isWhitespace).reverse

/-- `str.strip()` on a string. -/
def stripStr (s : String) : String :=
  String.mk (stripChars s.data)

/-- Value of a list of decimal digit characters. -/
def digitsVal (cs : List Char) : Nat :=
  cs.foldl (fun a c => a * 10 + (c.toNat - 48)) 0

/-- Parse an optional exponent suffix `([eE][+-]?digits)?` that must
consume the whole remaining input; `none` means the input is rejected. -/
def parseExpPart : List Char → Option ℤ
  | [] => some 0
  | c :: rest =>
    if c = 'e' ∨ c = 'E' then
      let sr : ℤ × List Char :=
        match rest with
        | '-' :: r => (-1, r)
        | '+' :: r => (1, r)
        | _ => (1, rest)
      let ds := sr.2.takeWhile Char.isDigit
      let tail := sr.2.dropWhile Char.isDigit
      if ds.isEmpty ∨ ¬ tail.isEmpty then none
      else some (sr.1 * (digitsVal ds : ℤ))
    else none

/-- Model of Python `float()` applied to an already-stripped character
list, restricted to finite plain decimal notation
`[+-]? (digits [. digits?] | . digits) ([eE][+-]?digits)?`.
Outside the model: `inf`/`nan` spellings (not representable in `ℚ`) and
underscore digit grouping; the status page emits plain decimals.
The value `s * (ip + fp / 10 ^ |fp|) * 10 ^ e` is assembled through
`mkRat` on integer numerator and denominator. -/
def pyFloatChars (cs : List Char) : Option ℚ :=
  let sr : ℤ × List Char :=
    match cs with
    | '-' :: r => (-1, r)
    | '+' :: r => (1, r)
    | _ => (1, cs)
  let ip := sr.2.takeWhile Char.isDigit
  let rest1 := sr.2.dropWhile Char.isDigit
  let fr : List Char × List Char :=
    match rest1 with
    | '.' :: r => (r.takeWhile Char.isDigit, r.dropWhile Char.isDigit)
    | _ => ([], rest1)
  if ip.isEmpty ∧ fr.1.isEmpty then none
  else
    match parseExpPart fr.2 with
    | none => none
    | some e =>
      let mant : ℤ := sr.1 * ((digitsVal ip * 10 ^ fr.1.length + digitsVal fr.1 : ℕ) : ℤ)
      match e with
      | Int.ofNat k => some (mkRat (mant * (10 : ℤ) ^ k) (10 ^ fr.1.length))
      | Int.negSucc k => some (mkRat mant (10 ^ fr.1.length * 10 ^ (k + 1)))

/-- Model of Python `float(s)` on a string (Python's `float` itself strips
surrounding whitespace). -/
def pyFloat (s : String) : Option ℚ :=
  pyFloatChars (stripChars s.data)

/-- `DeyeDataUpdateCoordinator._parse_numeric_value`: strip, map the empty
string and the `"---"` placeholder to `0.0`, otherwise `float(value)` with
any `ValueError` caught and turned into `0.0`. -/
def parse_numeric_value (text : String) : ℚ :=
  let value := stripChars text.data
  if value = [] ∨ value = ['-', '-', '-'] then 0
  else
    match pyFloatChars value with
    | some q => q
    | none => 0

/-- `_parse_numeric_value` seen with an optional argument: a `None`
argument raises `AttributeError` inside the `try`, which the handler
converts to `0.0`. -/
def parse_numeric_value_of : Option String → ℚ
  | none => 0
  | some s => parse_numeric_value s

/-- Strip a literal character-list from the front of the input;
`none` when it is not a prefix. -/
def stripLit : List Char → List Char → Option (List Char)
  | [], cs => some cs
  | _ :: _, [] => none
  | p :: ps, c :: cs => if p = c then stripLit ps cs else none

/-- Match the regex tail `\s*=\s*"([^\x22]*)";` at the head of the input
(the part of the pattern after the variable name), returning the capture. -/
def matchAfterName (cs : List Char) : Option String :=
  match cs.dropWhile Char.isWhitespace with
  | '=' :: r2 =>
    match r2.dropWhile Char.isWhitespace with
    | '"' :: r4 =>
      let v := r4.takeWhile (fun c => c ≠ '"')
      match r4.dropWhile (fun c => c ≠ '"') with
      | '"' :: ';' :: _ => some (String.mk v)
      | _ => none
    | _ => none
  | _ => none

/-- Match the whole pattern `var\s+NAME\s*=\s*"([^\x22]*)";` anchored at
the head of the input. -/
def matchVarAt (name : List Char) (cs : List Char) : Option String :=
  match cs with
  | 'v' :: 'a' :: 'r' :: rest =>
    if (rest.takeWhile Char.isWhitespace).isEmpty then none
    else
      match stripLit name (rest.dropWhile Char.isWhitespace) with
      | some r2 => matchAfterName r2
      | none => none
  | _ => none

/-- Leftmost search for the pattern, as `re.search` does: try every start
position from the left. -/
def searchVarChars (name : List Char) : List Char → Option String
  | [] => none
  | c :: rest =>
    match matchVarAt name (c :: rest) with
    | some v => some v
    | none => searchVarChars name rest

/-- `re.search(r'var\s+<name>\s*=\s*"([^\x22]*)";', html)` returning the
first capture group. -/
def searchVar (name : String) (html : String) : Option String :=
  searchVarChars name.data html.data

/- ## Data model -/

/-- The `_energy_cache` dict: initialised with all three keys present. -/
structure EnergyCache where
  today_energy : ℚ
  total_energy : ℚ
  current_power : ℚ
deriving DecidableEq

/-- The `_wifi_info_cache` dict: keys appear only once fetched. -/
structure WifiCache where
  wifi_ssid : Option String
  wifi_signal : Option String
deriving DecidableEq

/-- The `_device_info_cache` dict: keys appear only once fetched. -/
structure DeviceInfoCache where
  serial_number : Option String
  firmware_version : Option String
  module_id : Option String
deriving DecidableEq

/-- Mutable coordinator state: the three tiered caches, the two staleness
timestamps, and the availability tracker
(`_is_available`, `_consecutive_failures`). -/
structure CoordState where
  energy_cache : EnergyCache
  wifi_info_cache : WifiCache
  device_info_cache : DeviceInfoCache
  last_wifi_update : Option ℤ
  last_device_info_update : Option ℤ
  is_available : Bool
  consecutive_failures : Nat
deriving DecidableEq

/-- The published data dict (Snapshot). A field whose key is absent from
the Python dict is `none`; every consumer reads via `dict.get`. -/
structure Snapshot where
  current_power : ℚ
  today_energy : ℚ
  total_energy : ℚ
  serial_number : Option String
  firmware_version : Option String
  module_id : Option String
  wifi_ssid : Option String
  wifi_signal : Option String
  available : Bool
deriving DecidableEq

/-- `WIFI_UPDATE_INTERVAL` from `const.py` (seconds). -/
def WIFI_UPDATE_INTERVAL : ℤ := 900

/-- `DEVICE_INFO_UPDATE_INTERVAL` from `const.py` (seconds). -/
def DEVICE_INFO_UPDATE_INTERVAL : ℤ := 86400

/-- `self._max_failures_before_unavailable`, set to 3 in `__init__` and
never reassigned. -/
def max_failures_before_unavailable : Nat := 3

/-- Coordinator state as `__init__` leaves it: empty info caches, zeroed
energy cache, no timestamps, `_is_available = False`, zero failures. -/
def initState : CoordState :=
  { energy_cache := { today_energy := 0, total_energy := 0, current_power := 0 }
    wifi_info_cache := { wifi_ssid := none, wifi_signal := none }
    device_info_cache := { serial_number := none, firmware_version := none, module_id := none }
    last_wifi_update := none
    last_device_info_update := none
    is_available := false
    consecutive_failures := 0 }

/- ## Coordinator operations -/

/-- `_get_empty_data`: night-mode snapshot. Power is forced to `0`,
energy counters come from the cache, serial number and firmware version
come from the device cache; the dict sets `wifi_ssid`/`wifi_signal`
to `None` explicitly and contains no `module_id` key at all. -/
def get_empty_data (st : CoordState) : Snapshot :=
  { current_power := 0
    today_energy := st.energy_cache.today_energy
    total_energy := st.energy_cache.total_energy
    serial_number := st.device_info_cache.serial_number
    firmware_version := st.device_info_cache.firmware_version
    module_id := none
    wifi_ssid := none
    wifi_signal := none
    available := false }

/-- `_should_update_wifi`. -/
def should_update_wifi (st : CoordState) (now : ℤ) : Bool :=
  match st.last_wifi_update with
  | none => true
  | some t => decide (WIFI_UPDATE_INTERVAL ≤ now - t)

/-- `_should_update_device_info`. -/
def should_update_device_info (st : CoordState) (now : ℤ) : Bool :=
  match st.last_device_info_update with
  | none => true
  | some t => decide (DEVICE_INFO_UPDATE_INTERVAL ≤ now - t)

/-- The `current_power` block of `_parse_status_page`: parse
`webdata_now_p` when present, otherwise fall back to the cached value. -/
def parsedPower (st : CoordState) (html : String) : ℚ :=
  match searchVar "webdata_now_p" html with
  | some v => parse_numeric_value v
  | none => st.energy_cache.current_power

/-- The `today_energy` block of `_parse_status_page`: a parsed value is
used only when strictly positive, otherwise the cached value is served. -/
def parsedToday (st : CoordState) (html : String) : ℚ :=
  match searchVar "webdata_today_e" html with
  | some v =>
    let n := parse_numeric_value v
    if 0 < n then n else st.energy_cache.today_energy
  | none => st.energy_cache.today_energy

/-- The `total_energy` block of `_parse_status_page`, same policy as
`today_energy`. -/
def parsedTotal (st : CoordState) (html : String) : ℚ :=
  match searchVar "webdata_total_e" html with
  | some v =>
    let n := parse_numeric_value v
    if 0 < n then n else st.energy_cache.total_energy
  | none => st.energy_cache.total_energy

/-- The WiFi block of `_parse_status_page` when due: each field is
overwritten (stripped) only when its variable matched. -/
def updated_wifi_cache (st : CoordState) (html : String) : WifiCache :=
  { wifi_ssid :=
      match searchVar "cover_sta_ssid" html with
      | some v => some (stripStr v)
      | none => st.wifi_info_cache.wifi_ssid
    wifi_signal :=
      match searchVar "cover_sta_rssi" html with
      | some v => some (stripStr v)
      | none => st.wifi_info_cache.wifi_signal }

/-- The device-info block of `_parse_status_page` when due. -/
def updated_device_cache (st : CoordState) (html : String) : DeviceInfoCache :=
  { serial_number :=
      match searchVar "webdata_sn" html with
      | some v => some (stripStr v)
      | none => st.device_info_cache.serial_number
    firmware_version :=
      match searchVar "cover_ver" html with
      | some v => some (stripStr v)
      | none => st.device_info_cache.firmware_version
    module_id :=
      match searchVar "cover_mid" html with
      | some v => some (stripStr v)
      | none => st.device_info_cache.module_id }

/-- `_parse_status_page`: builds the success snapshot and performs the
cache mutations (power cache always, energy caches only for positive
values, WiFi/device caches through their staleness gates). Returns the
published dict together with the post-state. -/
def parse_status_page (st : CoordState) (now : ℤ) (html : String) : Snapshot × CoordState :=
  let current_power := parsedPower st html
  let today_energy := parsedToday st html
  let total_energy := parsedTotal st html
  let ec : EnergyCache :=
    { current_power := current_power
      today_energy := if 0 < today_energy then today_energy else st.energy_cache.today_energy
      total_energy := if 0 < total_energy then total_energy else st.energy_cache.total_energy }
  let wifiDue := should_update_wifi st now
  let wc := if wifiDue then updated_wifi_cache st html else st.wifi_info_cache
  let lwu := if wifiDue then some now else st.last_wifi_update
  let devDue := should_update_device_info st now
  let dc := if devDue then updated_device_cache st html else st.device_info_cache
  let ldu := if devDue then some now else st.last_device_info_update
  ({ current_power := current_power
     today_energy := today_energy
     total_energy := total_energy
     serial_number := dc.serial_number
     firmware_version := dc.firmware_version
     module_id := dc.module_id
     wifi_ssid := wc.wifi_ssid
     wifi_signal := wc.wifi_signal
     available := true },
   { st with
     energy_cache := ec
     wifi_info_cache := wc
     device_info_cache := dc
     last_wifi_update := lwu
     last_device_info_update := ldu })

/-- `_handle_failure`: at or above the threshold mark unavailable and
return the night-mode dict; below it return last known good values with
`available: True` ("pretend to be available during glitches"); the glitch
dict contains no `module_id` key. -/
def handle_failure (st : CoordState) : Snapshot × CoordState :=
  if max_failures_before_unavailable ≤ st.consecutive_failures then
    let st2 := { st with is_available := false }
    (get_empty_data st2, st2)
  else
    ({ current_power := st.energy_cache.current_power
       today_energy := st.energy_cache.today_energy
       total_energy := st.energy_cache.total_energy
       serial_number := st.device_info_cache.serial_number
       firmware_version := st.device_info_cache.firmware_version
       module_id := none
       wifi_ssid := st.wifi_info_cache.wifi_ssid
       wifi_signal := st.wifi_info_cache.wifi_signal
       available := true }, st)

/-- Classified outcome of the one bounded GET in `_async_update_data`:
the success body, or one of the failure classes distinguished by the
status checks and `except` clauses. -/
inductive FetchOutcome where
  | success (body : String)
  | authFailure
  | httpError (status : Nat)
  | timeout
  | connectionRefused
  | clientError (msg : String)
  | otherError (msg : String)
deriving DecidableEq

/-- Failure classification (everything except `success`). -/
def isFailure : FetchOutcome → Bool
  | FetchOutcome.success _ => false
  | _ => true

/-- `self._consecutive_failures += 1`. -/
def bumpFailures (st : CoordState) : CoordState :=
  { st with consecutive_failures := st.consecutive_failures + 1 }

/-- `_async_update_data` below the outcome classification: on success
reset the failure counter, mark available and parse; on each failure
class increment the counter and delegate to `_handle_failure`. -/
def update_data (st : CoordState) (now : ℤ) : FetchOutcome → Snapshot × CoordState
  | FetchOutcome.success body =>
    parse_status_page { st with consecutive_failures := 0, is_available := true } now body
  | FetchOutcome.authFailure => handle_failure (bumpFailures st)
  | FetchOutcome.httpError _ => handle_failure (bumpFailures st)
  | FetchOutcome.timeout => handle_failure (bumpFailures st)
  | FetchOutcome.connectionRefused => handle_failure (bumpFailures st)
  | FetchOutcome.clientError _ => handle_failure (bumpFailures st)
  | FetchOutcome.otherError _ => handle_failure (bumpFailures st)

/-- The snapshots published along a run of ticks from a given state. -/
def runSnapshots (st : CoordState) : List (ℤ × FetchOutcome) → List Snapshot
  | [] => []
  | t :: rest =>
    (update_data st t.1 t.2).1 :: runSnapshots (update_data st t.1 t.2).2 rest

/-- An outcome whose body, if it is a success carrying a
`webdata_now_p` value, parses to a nonnegative power. -/
def nonnegPowerOutcome : FetchOutcome → Bool
  | FetchOutcome.success body =>
    match searchVar "webdata_now_p" body with
    | some v => decide (0 ≤ parse_numeric_value v)
    | none => true
  | _ => true

/- ## Concrete runs used by counterexamples and witnesses -/

/-- A representative successful status page body. -/
def exBody : String :=
  "var webdata_now_p = \"150.0\"; var webdata_today_e = \"4.2\"; var webdata_total_e = \"1234.5\"; var cover_mid = \"MID7\"; var cover_sta_ssid = \"HomeWiFi\";"

/-- State after one successful tick on `exBody` from the fresh state. -/
def exSt1 : CoordState := (update_data initState 0 (FetchOutcome.success exBody)).2

/-- State after that success and one transport failure. -/
def exSt2 : CoordState := (update_data exSt1 1 FetchOutcome.timeout).2

/-- State after the success and two transport failures. -/
def exSt3 : CoordState := (update_data exSt2 2 FetchOutcome.timeout).2

/-- A body whose `webdata_today_e` is the exact zero glitch. -/
def zeroBody : String := "var webdata_today_e = \"0\";"

/-- A body reporting a smaller—but positive—today energy. -/
def smallerBody : String := "var webdata_today_e = \"3.0\";"

/-- A body reporting a negative instantaneous power. -/
def negBody : String := "var webdata_now_p = \"-5\";"

/- ## Helper lemmas -/

/-- Every failure classification funnels into the increment-then-handle
path of `_handle_failure`. -/
theorem update_data_failure (st : CoordState) (now : ℤ) (o : FetchOutcome)
    (h : isFailure o = true) :
    update_data st now o = handle_failure (bumpFailures st) := by
  cases o
  case success body => exact Bool.noConfusion h
  all_goals rfl

/-- Success ticks do not touch the failure counter set before parsing. -/
theorem parse_status_page_failures (st : CoordState) (now : ℤ) (html : String) :
    (parse_status_page st now html).2.consecutive_failures = st.consecutive_failures := rfl

/-- Success ticks do not touch the availability flag set before parsing. -/
theorem parse_status_page_avail (st : CoordState) (now : ℤ) (html : String) :
    (parse_status_page st now html).2.is_available = st.is_available := rfl

/-- The published power of a success tick is the `current_power` block. -/
theorem parse_status_page_snap_power (st : CoordState) (now : ℤ) (html : String) :
    (parse_status_page st now html).1.current_power = parsedPower st html := rfl

/-- The power cache after a success tick is the `current_power` block. -/
theorem parse_status_page_cache_power (st : CoordState) (now : ℤ) (html : String) :
    (parse_status_page st now html).2.energy_cache.current_power = parsedPower st html := rfl

/-- The published today energy of a success tick. -/
theorem parse_status_page_snap_today (st : CoordState) (now : ℤ) (html : String) :
    (parse_status_page st now html).1.today_energy = parsedToday st html := rfl

/-- The today-energy cache update of a success tick. -/
theorem parse_status_page_cache_today (st : CoordState) (now : ℤ) (html : String) :
    (parse_status_page st now html).2.energy_cache.today_energy =
      (if 0 < parsedToday st html then parsedToday st html
       else st.energy_cache.today_energy) := rfl

/-- The published total energy of a success tick. -/
theorem parse_status_page_snap_total (st : CoordState) (now : ℤ) (html : String) :
    (parse_status_page st now html).1.total_energy = parsedTotal st html := rfl

/-- The total-energy cache update of a success tick. -/
theorem parse_status_page_cache_total (st : CoordState) (now : ℤ) (html : String) :
    (parse_status_page st now html).2.energy_cache.total_energy =
      (if 0 < parsedTotal st html then parsedTotal st html
       else st.energy_cache.total_energy) := rfl

/-- The empty decimal never parses. -/
theorem pyFloatChars_nil : pyFloatChars [] = none := rfl

/-- The placeholder `---` never parses. -/
theorem pyFloatChars_dashes : pyFloatChars ['-', '-', '-'] = none := rfl

/-- Both published and cached power of a failure tick stay nonnegative
when the incoming cached power is. -/
theorem handle_failure_power (st : CoordState)
    (hc : 0 ≤ st.energy_cache.current_power) :
    0 ≤ (handle_failure st).1.current_power ∧
    0 ≤ (handle_failure st).2.energy_cache.current_power := by
  unfold handle_failure
  split_ifs
  · exact ⟨le_refl 0, hc⟩
  · exact ⟨hc, hc⟩

/-- One-step preservation of nonnegative power through any tick whose
body does not carry a negative `webdata_now_p`. -/
theorem step_power_nonneg (st : CoordState) (now : ℤ) (o : FetchOutcome)
    (hc : 0 ≤ st.energy_cache.current_power) (hg : nonnegPowerOutcome o = true) :
    0 ≤ (update_data st now o).1.current_power ∧
    0 ≤ (update_data st now o).2.energy_cache.current_power := by
  cases o
  case success body =>
    have hp : 0 ≤ parsedPower
        { st with consecutive_failures := 0, is_available := true } body := by
      simp only [nonnegPowerOutcome] at hg
      unfold parsedPower
      cases hs : searchVar "webdata_now_p" body with
      | some v =>
        rw [hs] at hg
        exact of_decide_eq_true hg
      | none => exact hc
    exact ⟨hp, hp⟩
  all_goals exact handle_failure_power (bumpFailures st) hc

/-- Run-level invariant: starting from a state with nonnegative cached
power, all published powers stay nonnegative when no body carries a
negative `webdata_now_p`. -/
theorem run_power_nonneg (ticks : List (ℤ × FetchOutcome)) :
    ∀ st : CoordState, 0 ≤ st.energy_cache.current_power →
      (∀ t ∈ ticks, nonnegPowerOutcome t.2 = true) →
      ∀ snap ∈ runSnapshots st ticks, 0 ≤ snap.current_power := by
  induction ticks with
  | nil =>
    intro st _ _ snap hsnap
    simp [runSnapshots] at hsnap
  | cons t rest ih =>
    intro st hc hg snap hsnap
    have hstep := step_power_nonneg st t.1 t.2 hc (hg t (List.mem_cons_self t rest))
    simp only [runSnapshots] at hsnap
    rcases List.mem_cons.mp hsnap with h | hmem
    · rw [h]
      exact hstep.1
    · exact ih (update_data st t.1 t.2).2 hstep.2
        (fun u hu => hg u (List.mem_cons_of_mem t hu)) snap hmem

/- ## Claim theorems -/

/-- Claim C1 (counterexample): on a third consecutive failure after a
success that cached a WiFi SSID and a module id, the published Snapshot
does not carry the cached network and module-id values: it reports
`wifi_ssid = none` and `module_id = none` although the caches hold
values, refuting the claim that every identity and network field equals
its cached value. -/
theorem unavailable_snapshot_counterexample :
    isFailure FetchOutcome.timeout = true ∧
    exSt3.consecutive_failures + 1 = max_failures_before_unavailable ∧
    exSt3.wifi_info_cache.wifi_ssid = some "HomeWiFi" ∧
    exSt3.device_info_cache.module_id = some "MID7" ∧
    (update_data exSt3 3 FetchOutcome.timeout).1.wifi_ssid = none ∧
    (update_data exSt3 3 FetchOutcome.timeout).1.module_id = none ∧
    (update_data exSt3 3 FetchOutcome.timeout).1.available = false := by
  decide

/-- Claim C1 (amended): on a failure-classified tick that reaches the
failure threshold, the published Snapshot has zero power, energy
counters and serial/firmware from their caches, `available = false`,
while `module_id`, `wifi_ssid` and `wifi_signal` are absent (`none`)
regardless of the caches; the tracker is marked unavailable. -/
theorem unavailable_snapshot_shape (st : CoordState) (now : ℤ) (o : FetchOutcome)
    (hf : isFailure o = true)
    (hth : max_failures_before_unavailable ≤ st.consecutive_failures + 1) :
    (update_data st now o).1 =
      { current_power := 0
        today_energy := st.energy_cache.today_energy
        total_energy := st.energy_cache.total_energy
        serial_number := st.device_info_cache.serial_number
        firmware_version := st.device_info_cache.firmware_version
        module_id := none
        wifi_ssid := none
        wifi_signal := none
        available := false } ∧
    (update_data st now o).2.is_available = false := by
  rw [update_data_failure st now o hf]
  unfold handle_failure
  rw [if_pos (show max_failures_before_unavailable ≤
    (bumpFailures st).consecutive_failures from hth)]
  exact ⟨rfl, rfl⟩

/-- Claim C1 witness: the amended snapshot shape at the concrete third
consecutive failure of the example run. -/
theorem unavailable_snapshot_shape_witness :
    (update_data exSt3 3 FetchOutcome.timeout).1 =
      { current_power := 0
        today_energy := exSt3.energy_cache.today_energy
        total_energy := exSt3.energy_cache.total_energy
        serial_number := exSt3.device_info_cache.serial_number
        firmware_version := exSt3.device_info_cache.firmware_version
        module_id := none
        wifi_ssid := none
        wifi_signal := none
        available := false } ∧
    (update_data exSt3 3 FetchOutcome.timeout).2.is_available = false :=
  unavailable_snapshot_shape exSt3 3 FetchOutcome.timeout rfl (by decide)

/-- Claim C2: the availability tracker step. Any success resets the
failure counter to zero and makes the tracker available immediately;
any failure increments the counter, marks unavailable exactly when the
incremented counter reaches the threshold, and otherwise leaves the
flag unchanged. -/
theorem availability_tracker_step (st : CoordState) (now : ℤ) (o : FetchOutcome) :
    (∀ body, o = FetchOutcome.success body →
      (update_data st now o).2.consecutive_failures = 0 ∧
      (update_data st now o).2.is_available = true) ∧
    (isFailure o = true →
      (update_data st now o).2.consecutive_failures = st.consecutive_failures + 1 ∧
      (update_data st now o).2.is_available =
        (if max_failures_before_unavailable ≤ st.consecutive_failures + 1 then false
         else st.is_available)) := by
  constructor
  · rintro body rfl
    exact ⟨rfl, rfl⟩
  · intro ho
    rw [update_data_failure st now o ho]
    simp only [handle_failure, bumpFailures]
    split_ifs with h
    · exact ⟨rfl, rfl⟩
    · exact ⟨rfl, rfl⟩

/-- Claim C2 witness: the tracker step at a concrete success and a
concrete failure from the fresh state. -/
theorem availability_tracker_step_witness :
    ((update_data initState 0 (FetchOutcome.success exBody)).2.consecutive_failures = 0 ∧
      (update_data initState 0 (FetchOutcome.success exBody)).2.is_available = true) ∧
    ((update_data initState 0 FetchOutcome.timeout).2.consecutive_failures =
        initState.consecutive_failures + 1 ∧
      (update_data initState 0 FetchOutcome.timeout).2.is_available =
        (if max_failures_before_unavailable ≤ initState.consecutive_failures + 1 then false
         else initState.is_available)) :=
  ⟨(availability_tracker_step initState 0 (FetchOutcome.success exBody)).1 exBody rfl,
   (availability_tracker_step initState 0 FetchOutcome.timeout).2 rfl⟩

/-- Claim C3 (counterexample): a below-threshold failure tick from an
available state whose device cache holds a module id publishes a
Snapshot with `module_id = none`, so the Snapshot is not built entirely
from cached values. -/
theorem glitch_snapshot_counterexample :
    isFailure FetchOutcome.timeout = true ∧
    exSt1.consecutive_failures + 1 < max_failures_before_unavailable ∧
    exSt1.is_available = true ∧
    exSt1.device_info_cache.module_id = some "MID7" ∧
    (update_data exSt1 1 FetchOutcome.timeout).1.module_id = none := by
  decide

/-- Claim C3 (amended): on a below-threshold failure tick from an
available tracker, the published Snapshot carries the cached values for
power, both energy counters, serial number, firmware version and both
WiFi fields, with `available = true`, while `module_id` is absent
(`none`) regardless of the cache. -/
theorem glitch_snapshot_shape (st : CoordState) (now : ℤ) (o : FetchOutcome)
    (hf : isFailure o = true)
    (hth : st.consecutive_failures + 1 < max_failures_before_unavailable)
    (hA : st.is_available = true) :
    (update_data st now o).1 =
      { current_power := st.energy_cache.current_power
        today_energy := st.energy_cache.today_energy
        total_energy := st.energy_cache.total_energy
        serial_number := st.device_info_cache.serial_number
        firmware_version := st.device_info_cache.firmware_version
        module_id := none
        wifi_ssid := st.wifi_info_cache.wifi_ssid
        wifi_signal := st.wifi_info_cache.wifi_signal
        available := true } := by
  rw [update_data_failure st now o hf]
  unfold handle_failure
  rw [if_neg (show ¬ max_failures_before_unavailable ≤
    (bumpFailures st).consecutive_failures from Nat.not_le.mpr hth)]
  rfl

/-- Claim C3 witness: scenario B, the second consecutive failure after a
success that cached a power of 150 W still publishes 150 W and
`available = true`. -/
theorem glitch_snapshot_shape_witness :
    (update_data exSt2 2 FetchOutcome.timeout).1.current_power = 150 ∧
    (update_data exSt2 2 FetchOutcome.timeout).1.available = true := by
  have h := glitch_snapshot_shape exSt2 2 FetchOutcome.timeout rfl (by decide) (by decide)
  rw [h]
  exact ⟨by decide, rfl⟩

/-- Claim C4 (counterexample): a successful update whose body reports a
smaller but positive today energy overwrites the larger cached value,
so the energy counters do decrease across consecutive successful cache
updates. -/
theorem energy_monotone_counterexample :
    exSt1.energy_cache.today_energy = mkRat 21 5 ∧
    (update_data exSt1 1 (FetchOutcome.success smallerBody)).2.energy_cache.today_energy = 3 ∧
    (3 : ℚ) < mkRat 21 5 := by
  decide

/-- Claim C4 (amended): across a successful cache update each energy
counter either keeps its previous cached value or takes a strictly
positive parsed value; in particular a positive counter never regresses
to zero, though a smaller positive parsed value does lower it. -/
theorem energy_cache_positive_guard (st : CoordState) (now : ℤ) (html : String) :
    ((parse_status_page st now html).2.energy_cache.today_energy =
        st.energy_cache.today_energy ∨
      0 < (parse_status_page st now html).2.energy_cache.today_energy) ∧
    ((parse_status_page st now html).2.energy_cache.total_energy =
        st.energy_cache.total_energy ∨
      0 < (parse_status_page st now html).2.energy_cache.total_energy) ∧
    (0 < st.energy_cache.today_energy →
      0 < (parse_status_page st now html).2.energy_cache.today_energy) ∧
    (0 < st.energy_cache.total_energy →
      0 < (parse_status_page st now html).2.energy_cache.total_energy) := by
  have key : ∀ a b : ℚ,
      ((if 0 < a then a else b) = b ∨ 0 < (if 0 < a then a else b)) ∧
      (0 < b → 0 < (if 0 < a then a else b)) := by
    intro a b
    split_ifs with h
    · exact ⟨Or.inr h, fun _ => h⟩
    · exact ⟨Or.inl rfl, fun hb => hb⟩
  rw [parse_status_page_cache_today, parse_status_page_cache_total]
  exact ⟨(key _ _).1, (key _ _).1, (key _ _).2, (key _ _).2⟩

/-- Claim C4 witness: a zero reading right after a cached positive today
energy leaves the counter positive. -/
theorem energy_cache_positive_guard_witness :
    0 < (parse_status_page exSt1 1 zeroBody).2.energy_cache.today_energy :=
  (energy_cache_positive_guard exSt1 1 zeroBody).2.2.1 (by decide)

/-- Claim C5: on a successful fetch a parsed energy value of exactly
zero (which is also what unparsable text normalises to) neither reaches
the published Snapshot nor the cache — the cached value is served and
kept — while a matched power value overwrites both the Snapshot and the
power cache every tick, including with zero. -/
theorem zero_glitch_guard (st : CoordState) (now : ℤ) (html : String) :
    (∀ v, searchVar "webdata_today_e" html = some v → parse_numeric_value v = 0 →
      (parse_status_page st now html).1.today_energy = st.energy_cache.today_energy ∧
      (parse_status_page st now html).2.energy_cache.today_energy =
        st.energy_cache.today_energy) ∧
    (∀ v, searchVar "webdata_total_e" html = some v → parse_numeric_value v = 0 →
      (parse_status_page st now html).1.total_energy = st.energy_cache.total_energy ∧
      (parse_status_page st now html).2.energy_cache.total_energy =
        st.energy_cache.total_energy) ∧
    (∀ v, searchVar "webdata_now_p" html = some v →
      (parse_status_page st now html).1.current_power = parse_numeric_value v ∧
      (parse_status_page st now html).2.energy_cache.current_power =
        parse_numeric_value v) := by
  refine ⟨?_, ?_, ?_⟩
  · intro v hv h0
    have e : parsedToday st html = st.energy_cache.today_energy := by
      simp [parsedToday, hv, h0]
    refine ⟨?_, ?_⟩
    · rw [parse_status_page_snap_today, e]
    · rw [parse_status_page_cache_today, e]
      split_ifs <;> rfl
  · intro v hv h0
    have e : parsedTotal st html = st.energy_cache.total_energy := by
      simp [parsedTotal, hv, h0]
    refine ⟨?_, ?_⟩
    · rw [parse_status_page_snap_total, e]
    · rw [parse_status_page_cache_total, e]
      split_ifs <;> rfl
  · intro v hv
    have e : parsedPower st html = parse_numeric_value v := by
      simp [parsedPower, hv]
    exact ⟨by rw [parse_status_page_snap_power, e],
      by rw [parse_status_page_cache_power, e]⟩

/-- Claim C5 witness: scenario D, a body carrying the literal zero for
today energy right after a cached 4.2 kWh serves 4.2 kWh. -/
theorem zero_glitch_guard_witness :
    (parse_status_page exSt1 1 zeroBody).1.today_energy =
      exSt1.energy_cache.today_energy ∧
    exSt1.energy_cache.today_energy = mkRat 21 5 :=
  ⟨((zero_glitch_guard exSt1 1 zeroBody).1 "0" (by decide) (by decide)).1,
   by decide⟩

/-- Claim C6 (counterexample): from the fresh state (created
unavailable), the first and second failure ticks publish Snapshots with
`available = true`, not `false` as the claim derives from the
Unavailable-branch rule. -/
theorem fresh_tracker_counterexample :
    initState.is_available = false ∧
    isFailure FetchOutcome.timeout = true ∧
    (update_data initState 0 FetchOutcome.timeout).1.available = true ∧
    (update_data (update_data initState 0 FetchOutcome.timeout).2 1
      FetchOutcome.timeout).1.available = true := by
  decide

/-- Claim C6 (amended): for a fresh tracker whose first one or two
outcomes are failures, the internal flag stays unavailable, but the
branch taken is the below-threshold glitch branch, so each published
Snapshot has `available = true` and `current_power = 0` (the cached
initial power). -/
theorem fresh_tracker_first_failures (now1 now2 : ℤ) (o1 o2 : FetchOutcome)
    (h1 : isFailure o1 = true) (h2 : isFailure o2 = true) :
    (update_data initState now1 o1).2.is_available = false ∧
    (update_data initState now1 o1).1.available = true ∧
    (update_data initState now1 o1).1.current_power = 0 ∧
    (update_data (update_data initState now1 o1).2 now2 o2).2.is_available = false ∧
    (update_data (update_data initState now1 o1).2 now2 o2).1.available = true ∧
    (update_data (update_data initState now1 o1).2 now2 o2).1.current_power = 0 := by
  rw [update_data_failure _ _ _ h1, update_data_failure _ _ _ h2]
  decide

/-- Claim C6 witness: the amended statement at two concrete failure
outcomes. -/
theorem fresh_tracker_first_failures_witness :
    (update_data initState 5 FetchOutcome.timeout).2.is_available = false ∧
    (update_data initState 5 FetchOutcome.timeout).1.available = true ∧
    (update_data initState 5 FetchOutcome.timeout).1.current_power = 0 ∧
    (update_data (update_data initState 5 FetchOutcome.timeout).2 6
      FetchOutcome.connectionRefused).2.is_available = false ∧
    (update_data (update_data initState 5 FetchOutcome.timeout).2 6
      FetchOutcome.connectionRefused).1.available = true ∧
    (update_data (update_data initState 5 FetchOutcome.timeout).2 6
      FetchOutcome.connectionRefused).1.current_power = 0 :=
  fresh_tracker_first_failures 5 6 FetchOutcome.timeout FetchOutcome.connectionRefused rfl rfl

/-- Claim C7: the numeric normaliser is total; `None`, the empty string
and the placeholder dashes (with surrounding whitespace) normalise to
zero, every string the decimal model of float() parses is returned
exactly, and every string it rejects normalises to zero. -/
theorem numeric_normalizer_total (s : String) :
    parse_numeric_value_of none = 0 ∧
    parse_numeric_value "" = 0 ∧
    parse_numeric_value "---" = 0 ∧
    ((stripChars s.data = [] ∨ stripChars s.data = ['-', '-', '-']) →
      parse_numeric_value s = 0) ∧
    (∀ q : ℚ, pyFloat s = some q → parse_numeric_value s = q) ∧
    (pyFloat s = none → parse_numeric_value s = 0) := by
  refine ⟨rfl, by decide, by decide, ?_, ?_, ?_⟩
  · intro h
    simp only [parse_numeric_value]
    rw [if_pos h]
  · intro q hq
    simp only [parse_numeric_value]
    simp only [pyFloat] at hq
    by_cases h : stripChars s.data = [] ∨ stripChars s.data = ['-', '-', '-']
    · exfalso
      rcases h with h | h <;> rw [h] at hq <;>
        simp [pyFloatChars_nil, pyFloatChars_dashes] at hq
    · rw [if_neg h, hq]
  · intro h
    simp only [parse_numeric_value]
    simp only [pyFloat] at h
    by_cases hc : stripChars s.data = [] ∨ stripChars s.data = ['-', '-', '-']
    · rw [if_pos hc]
    · rw [if_neg hc, h]

/-- Claim C7 witness: a padded decimal string normalises to its exact
value. -/
theorem numeric_normalizer_total_witness :
    parse_numeric_value " 4.25 " = mkRat 17 4 :=
  (numeric_normalizer_total " 4.25 ").2.2.2.2.1 (mkRat 17 4) (by decide)

/-- Claim C8 (counterexample): a success body reporting a negative
power is published as is — the Snapshot value is not nonnegative. -/
theorem snapshot_power_nonneg_counterexample :
    (update_data initState 0 (FetchOutcome.success negBody)).1.current_power = -5 ∧
    ((-5 : ℚ) < 0) := by
  decide

/-- Claim C8 (amended): every Snapshot structurally contains
`current_power`, and along any run from the fresh state in which no
success body carries a negative `webdata_now_p` value, every published
`current_power` is nonnegative (the code itself applies no clamp). -/
theorem snapshot_power_field_nonneg (ticks : List (ℤ × FetchOutcome))
    (hg : ∀ t ∈ ticks, nonnegPowerOutcome t.2 = true) :
    ∀ snap ∈ runSnapshots initState ticks, 0 ≤ snap.current_power :=
  run_power_nonneg ticks initState (le_refl 0) hg

/-- Claim C8 witness: the published power of a concrete one-tick run. -/
theorem snapshot_power_field_nonneg_witness :
    0 ≤ (update_data initState 0 (FetchOutcome.success exBody)).1.current_power := by
  have h := snapshot_power_field_nonneg [((0 : ℤ), FetchOutcome.success exBody)] (by decide)
  exact h _ (by simp [runSnapshots])

/-- Claim C9: the update function is total over the outcome
classification — every classified outcome, success or any of the six
failure classes, maps to the defined snapshot of either the parse path
or the increment-and-handle failure path; no outcome escapes. -/
theorem poll_outcome_totality (st : CoordState) (now : ℤ) (o : FetchOutcome) :
    update_data st now o =
      (match o with
       | FetchOutcome.success body =>
         parse_status_page { st with consecutive_failures := 0, is_available := true } now body
       | _ => handle_failure (bumpFailures st)) := by
  cases o <;> rfl

/-- Claim C10: failure ticks leave every cache and staleness timestamp
exactly as the last successful parse left them; only the failure
counter (incremented) and the availability flag may change. -/
theorem failure_tick_frame (st : CoordState) (now : ℤ) (o : FetchOutcome)
    (h : isFailure o = true) :
    (update_data st now o).2.energy_cache = st.energy_cache ∧
    (update_data st now o).2.wifi_info_cache = st.wifi_info_cache ∧
    (update_data st now o).2.device_info_cache = st.device_info_cache ∧
    (update_data st now o).2.last_wifi_update = st.last_wifi_update ∧
    (update_data st now o).2.last_device_info_update = st.last_device_info_update ∧
    (update_data st now o).2.consecutive_failures = st.consecutive_failures + 1 := by
  rw [update_data_failure st now o h]
  unfold handle_failure
  split_ifs
  · exact ⟨rfl, rfl, rfl, rfl, rfl, rfl⟩
  · exact ⟨rfl, rfl, rfl, rfl, rfl, rfl⟩

/-- Claim C10 witness: the frame condition at a concrete failure tick
following a successful parse. -/
theorem failure_tick_frame_witness :
    (update_data exSt1 1 FetchOutcome.timeout).2.energy_cache = exSt1.energy_cache ∧
    (update_data exSt1 1 FetchOutcome.timeout).2.wifi_info_cache = exSt1.wifi_info_cache ∧
    (update_data exSt1 1 FetchOutcome.timeout).2.device_info_cache =
      exSt1.device_info_cache ∧
    (update_data exSt1 1 FetchOutcome.timeout).2.last_wifi_update =
      exSt1.last_wifi_update ∧
    (update_data exSt1 1 FetchOutcome.timeout).2.last_device_info_update =
      exSt1.last_device_info_update ∧
    (update_data exSt1 1 FetchOutcome.timeout).2.consecutive_failures =
      exSt1.consecutive_failures + 1 :=
  failure_tick_frame exSt1 1 FetchOutcome.timeout rfl
